import Mathlib

/-
Verification of the tmrl training-step algorithms (SAC and REDQ-SAC) from
tmrl/custom/custom_algorithms.py, as a shallow embedding in Lean 4.

Modelling conventions:
* Scalars (rewards, losses, parameters, Q-values, log-probabilities) are
  rationals; tensors over a batch are lists; the leading batch dimension of
  the Python tensors becomes the list structure.
* The function approximator (tmrl/custom/custom_models.py, external to this
  development; the spec declares it an external collaborator consumed through
  a narrow interface) is abstract: an actor `params -> rng -> obs -> act x logp`
  and critics `params -> obs -> act -> Q`, evaluated at the live parameter
  vector or at the target parameter vector.  The deep-copied target network
  shares the architecture and has its own parameter storage, so it is the same
  abstract function applied to `target_params`.
* Gradient-based optimizers (torch.optim.Adam, external) are abstract
  deterministic step functions `optState -> params -> loss -> optState x params`.
  The gradient computation and the freeze/unfreeze discipline are absorbed
  into these step functions; what the embedding tracks exactly is which loss
  value is handed to which optimizer, in which order, and which parameter
  vectors each evaluation and the polyak update read.
* `torch.exp` is abstracted as an arbitrary function `Exp`, since real
  exponentiation is not rational-valued; every claim about the entropy
  coefficient only needs that the same function is applied to `log_alpha`.
* Randomness is explicit: actor sampling takes an `rng` value, and the numpy
  draw `np.random.choice(n, m, replace=False)` is modelled by an input
  permutation of the critic indices of which the first `m` entries are taken;
  numpy validates `m <= n` and raises ValueError otherwise (documented numpy
  behaviour), and `torch.stack` of an empty list raises RuntimeError.
* Python attribute errors are modelled with `Except String`: the agents store
  `alpha_t_attr : Option` for the attribute `self.alpha_t`, which
  `__post_init__` only sets when the entropy coefficient is not learned;
  reading it when absent raises AttributeError, exactly as in Python.
-/

namespace Tmrl

/-- Mean of a list of rationals, mirroring `torch.mean` over a 1-D tensor. -/
def listMean (l : List ℚ) : ℚ := l.sum / l.length

/-- One transition of a batch: observation, action, reward, next observation,
done flag (0 or 1 as a scalar). -/
structure Tr (Obs Act : Type) where
  o : Obs
  a : Act
  r : ℚ
  o2 : Obs
  d : ℚ

/-- The dictionary returned by `train`: `loss_actor` and `loss_critic` always,
`loss_entropy_coef` and `entropy_coef` only when the entropy coefficient is
learned. -/
structure RetDict where
  loss_actor : ℚ
  loss_critic : ℚ
  loss_entropy_coef : Option ℚ
  entropy_coef : Option ℚ
  deriving DecidableEq

/-- Abstract SAC function approximator (MLPActorCritic): a stochastic actor
returning a sampled action with its log-probability, and two critics, all
evaluated at an explicit parameter vector (live or target). -/
structure SacNet (Obs Act R : Type) where
  actor : List ℚ → R → Obs → Act × ℚ
  q1 : List ℚ → Obs → Act → ℚ
  q2 : List ℚ → Obs → Act → ℚ

/-- State of a `SpinupSacAgent`: hyperparameters, the shared architecture with
live and target parameter vectors, entropy-coefficient state, and the three
optimizers (abstract state plus abstract deterministic step function). -/
structure SacAgent (Obs Act R QS PS AS : Type) where
  gamma : ℚ
  polyak : ℚ
  learn_entropy_coef : Bool
  target_entropy : ℚ
  net : SacNet Obs Act R
  params : List ℚ
  target_params : List ℚ
  log_alpha : ℚ
  alpha_t_attr : Option ℚ
  qOpt : QS
  qStep : QS → List ℚ → ℚ → QS × List ℚ
  piOpt : PS
  piStep : PS → List ℚ → ℚ → PS × List ℚ
  alphaOpt : AS
  alphaStep : AS → ℚ → ℚ → AS × ℚ

/-- Polyak averaging of every target parameter against its live counterpart
(custom_algorithms.py lines 170-176 and 306-309):
`p_targ.data.mul_(polyak); p_targ.data.add_((1 - polyak) * p.data)`. -/
def polyakAvg (polyak : ℚ) (live target : List ℚ) : List ℚ :=
  List.zipWith (fun p pt => polyak * pt + (1 - polyak) * p) live target

/-- Elementwise minimum of the two target critics (line 125), the value term
of the SAC Bellman backup. -/
def sacValueTerm {Obs Act R : Type} (net : SacNet Obs Act R) (tps : List ℚ)
    (o2 : Obs) (a2 : Act) : ℚ :=
  min (net.q1 tps o2 a2) (net.q2 tps o2 a2)

/-- Bellman backup of one transition (lines 118-126): the next action and its
log-probability come from the current (live) actor at the next observation,
the target critics are evaluated at the target parameters, minimized, entropy
corrected, discounted, masked by the done flag and added to the reward. -/
def sacBackup {Obs Act R QS PS AS : Type} (ag : SacAgent Obs Act R QS PS AS)
    (rA2 : R) (alpha_t : ℚ) (t : Tr Obs Act) : ℚ :=
  let p2 := ag.net.actor ag.params rA2 t.o2
  t.r + ag.gamma * (1 - t.d) * (sacValueTerm ag.net ag.target_params t.o2 p2.1 - alpha_t * p2.2)

/-- MSE of the first live critic against the backup (lines 112 and 131). -/
def sacLossQ1 {Obs Act R QS PS AS : Type} (ag : SacAgent Obs Act R QS PS AS)
    (batch : List (Tr Obs Act)) (rA2 : R) (alpha_t : ℚ) : ℚ :=
  listMean (batch.map fun t => (ag.net.q1 ag.params t.o t.a - sacBackup ag rA2 alpha_t t) ^ 2)

/-- MSE of the second live critic against the backup (lines 114 and 132). -/
def sacLossQ2 {Obs Act R QS PS AS : Type} (ag : SacAgent Obs Act R QS PS AS)
    (batch : List (Tr Obs Act)) (rA2 : R) (alpha_t : ℚ) : ℚ :=
  listMean (batch.map fun t => (ag.net.q2 ag.params t.o t.a - sacBackup ag rA2 alpha_t t) ^ 2)

/-- Critic loss handed to the critic optimizer (line 133): the average of the
two per-critic MSE losses. -/
def sacLossQ {Obs Act R QS PS AS : Type} (ag : SacAgent Obs Act R QS PS AS)
    (batch : List (Tr Obs Act)) (rA2 : R) (alpha_t : ℚ) : ℚ :=
  (sacLossQ1 ag batch rA2 alpha_t + sacLossQ2 ag batch rA2 alpha_t) / 2

/-- Critic optimizer step (lines 135-137): new optimizer state and new live
parameter vector. -/
def sacQRes {Obs Act R QS PS AS : Type} (ag : SacAgent Obs Act R QS PS AS)
    (batch : List (Tr Obs Act)) (rA2 : R) (alpha_t : ℚ) : QS × List ℚ :=
  ag.qStep ag.qOpt ag.params (sacLossQ ag batch rA2 alpha_t)

/-- Actor loss (lines 150-158): the action and log-probability sampled at the
start of the call (line 75, randomness `rA`) are reused, not resampled; the
two live critics are evaluated at their current, post-critic-step parameters
and minimized. -/
def sacLossPi {Obs Act R QS PS AS : Type} (ag : SacAgent Obs Act R QS PS AS)
    (batch : List (Tr Obs Act)) (rA rA2 : R) (alpha_t : ℚ) : ℚ :=
  listMean (batch.map fun t =>
    let p := ag.net.actor ag.params rA t.o
    alpha_t * p.2 - min (ag.net.q1 (sacQRes ag batch rA2 alpha_t).2 t.o p.1)
                        (ag.net.q2 (sacQRes ag batch rA2 alpha_t).2 t.o p.1))

/-- Actor optimizer step (lines 160-162). -/
def sacPiRes {Obs Act R QS PS AS : Type} (ag : SacAgent Obs Act R QS PS AS)
    (batch : List (Tr Obs Act)) (rA rA2 : R) (alpha_t : ℚ) : PS × List ℚ :=
  ag.piStep ag.piOpt (sacQRes ag batch rA2 alpha_t).2 (sacLossPi ag batch rA rA2 alpha_t)

/-- Entropy-coefficient optimizer step (lines 101-104), performed only when a
coefficient loss was built. -/
def sacAlphaRes {Obs Act R QS PS AS : Type} (ag : SacAgent Obs Act R QS PS AS)
    (loss_alpha : Option ℚ) : AS × ℚ :=
  match loss_alpha with
  | some la => ag.alphaStep ag.alphaOpt ag.log_alpha la
  | none => (ag.alphaOpt, ag.log_alpha)

/-- The agent state after one SAC training step: updated live parameters
(critic step then actor step), polyak-averaged target parameters computed
last from the final live parameters, and the new optimizer states. -/
def sacAgentAfter {Obs Act R QS PS AS : Type} (ag : SacAgent Obs Act R QS PS AS)
    (batch : List (Tr Obs Act)) (rA rA2 : R) (alpha_t : ℚ) (loss_alpha : Option ℚ) :
    SacAgent Obs Act R QS PS AS :=
  { ag with
    params := (sacPiRes ag batch rA rA2 alpha_t).2,
    target_params := polyakAvg ag.polyak (sacPiRes ag batch rA rA2 alpha_t).2 ag.target_params,
    log_alpha := (sacAlphaRes ag loss_alpha).2,
    qOpt := (sacQRes ag batch rA2 alpha_t).1,
    piOpt := (sacPiRes ag batch rA rA2 alpha_t).1,
    alphaOpt := (sacAlphaRes ag loss_alpha).1 }

/-- The body of `SpinupSacAgent.train` after the entropy coefficient has been
resolved (lines 101-190), ending with the returned dictionary of lines
180-190. -/
def sacCore {Obs Act R QS PS AS : Type} (ag : SacAgent Obs Act R QS PS AS)
    (batch : List (Tr Obs Act)) (rA rA2 : R) (alpha_t : ℚ) (loss_alpha : Option ℚ) :
    Except String (SacAgent Obs Act R QS PS AS × RetDict) :=
  let base : RetDict :=
    { loss_actor := sacLossPi ag batch rA rA2 alpha_t,
      loss_critic := sacLossQ ag batch rA2 alpha_t,
      loss_entropy_coef := none, entropy_coef := none }
  let retE : Except String RetDict :=
    if ag.learn_entropy_coef then
      match loss_alpha with
      | some la => .ok { base with loss_entropy_coef := some la, entropy_coef := some alpha_t }
      | none => .error "AttributeError: NoneType object has no attribute detach"
    else .ok base
  match retE with
  | .error e => .error e
  | .ok ret => .ok (sacAgentAfter ag batch rA rA2 alpha_t loss_alpha, ret)

/-- Entropy-coefficient loss of SAC v2 (line 90):
`-(log_alpha * (logp_pi + target_entropy).detach()).mean()`, with the policy
sample taken at the start of the call (line 75). -/
def sacLossAlpha {Obs Act R QS PS AS : Type} (ag : SacAgent Obs Act R QS PS AS)
    (batch : List (Tr Obs Act)) (rA : R) : ℚ :=
  -(listMean (batch.map fun t =>
    ag.log_alpha * ((ag.net.actor ag.params rA t.o).2 + ag.target_entropy)))

/-- One call of `SpinupSacAgent.train` (lines 67-190).  `Exp` models
`torch.exp`; `rA` and `rA2` are the randomness consumed by the two actor
sampling calls (lines 75 and 120). -/
def sacTrain {Obs Act R QS PS AS : Type} (Exp : ℚ → ℚ)
    (ag : SacAgent Obs Act R QS PS AS) (batch : List (Tr Obs Act)) (rA rA2 : R) :
    Except String (SacAgent Obs Act R QS PS AS × RetDict) :=
  -- lines 82-95: alpha_t is exp of the detached log_alpha when learned
  -- (its pre-step value), otherwise the fixed attribute self.alpha_t
  if ag.learn_entropy_coef then
    sacCore ag batch rA rA2 (Exp ag.log_alpha) (some (sacLossAlpha ag batch rA))
  else
    match ag.alpha_t_attr with
    | some a => sacCore ag batch rA rA2 a none
    | none => .error "AttributeError: SpinupSacAgent object has no attribute alpha_t"

/-- Abstract REDQ function approximator (REDQMLPActorCritic): a stochastic
actor and an ensemble of critics indexed by a natural number, all evaluated at
an explicit parameter vector (live or target). -/
structure RedqNet (Obs Act R : Type) where
  actor : List ℚ → R → Obs → Act × ℚ
  qs : ℕ → List ℚ → Obs → Act → ℚ

/-- State of a `REDQSACAgent`: hyperparameters including the ensemble size
`n`, the subset size `m` and the UTD ratio `q_updates_per_policy_update`, the
shared architecture with live and target parameter vectors, the entropy
coefficient state, the stored actor loss `loss_pi_stored` (field `self.loss_pi`,
initialized to zero) and the update counter `i_update`, plus the optimizers
(the per-critic optimizer list is modelled as one abstract state `qOpt`
stepped once with the joint critic loss). -/
structure RedqAgent (Obs Act R QS PS AS : Type) where
  gamma : ℚ
  polyak : ℚ
  learn_entropy_coef : Bool
  target_entropy : ℚ
  n : ℕ
  m : ℕ
  q_updates_per_policy_update : ℕ
  net : RedqNet Obs Act R
  params : List ℚ
  target_params : List ℚ
  log_alpha : ℚ
  alpha_t_attr : Option ℚ
  loss_pi_stored : ℚ
  i_update : ℕ
  qOpt : QS
  qStep : QS → List ℚ → ℚ → QS × List ℚ
  piOpt : PS
  piStep : PS → List ℚ → ℚ → PS × List ℚ
  alphaOpt : AS
  alphaStep : AS → ℚ → ℚ → AS × ℚ

/-- Minimum of a nonempty list of rationals, mirroring `torch.min` over the
stacked dimension; the empty case is never reached by the training step. -/
def minList : List ℚ → ℚ
  | [] => 0
  | x :: xs => xs.foldl min x

/-- Value term of the REDQ Bellman backup (lines 271-273): the elementwise
minimum over the target-critic predictions at the sampled indices. -/
def redqValueTerm {Obs Act R : Type} (net : RedqNet Obs Act R) (tps : List ℚ)
    (idxs : List ℕ) (o2 : Obs) (a2 : Act) : ℚ :=
  minList (idxs.map fun i => net.qs i tps o2 a2)

/-- UTD gate of one call (lines 245-246): the counter is incremented first,
so the call whose 1-based index is a multiple of `q_updates_per_policy_update`
updates the policy. -/
def redqUpdatePolicy {Obs Act R QS PS AS : Type} (ag : RedqAgent Obs Act R QS PS AS) : Bool :=
  (ag.i_update + 1) % ag.q_updates_per_policy_update == 0

/-- The sampled subset of critic indices (line 269): the first `m` entries of
the permutation drawn by `np.random.choice(n, m, replace=False)`. -/
def redqSampleIdxs {Obs Act R QS PS AS : Type} (ag : RedqAgent Obs Act R QS PS AS)
    (perm : List ℕ) : List ℕ :=
  perm.take ag.m

/-- Bellman backup of one transition (lines 266-274): the next action and its
log-probability come from the current (live) actor at the next observation;
the sampled target critics are evaluated at the target parameters and
minimized. -/
def redqBackup {Obs Act R QS PS AS : Type} (ag : RedqAgent Obs Act R QS PS AS)
    (rA2 : R) (perm : List ℕ) (alpha_t : ℚ) (t : Tr Obs Act) : ℚ :=
  let p2 := ag.net.actor ag.params rA2 t.o2
  t.r + ag.gamma * (1 - t.d) *
    (redqValueTerm ag.net ag.target_params (redqSampleIdxs ag perm) t.o2 p2.1 - alpha_t * p2.2)

/-- Critic loss (lines 276-280): all `n` live critics are evaluated at
`(o, a)`, stacked, and `torch.nn.MSELoss` averages the squared error against
the broadcast backup over every (batch element, critic) pair. -/
def redqLossQ {Obs Act R QS PS AS : Type} (ag : RedqAgent Obs Act R QS PS AS)
    (batch : List (Tr Obs Act)) (rA2 : R) (perm : List ℕ) (alpha_t : ℚ) : ℚ :=
  listMean ((batch.map fun t =>
    (List.range ag.n).map fun i =>
      (ag.net.qs i ag.params t.o t.a - redqBackup ag rA2 perm alpha_t t) ^ 2).flatten)

/-- Critic optimizer steps (lines 282-284 and 300-301): every per-critic
optimizer receives the joint loss; the steps are applied after the actor
backward pass. -/
def redqQRes {Obs Act R QS PS AS : Type} (ag : RedqAgent Obs Act R QS PS AS)
    (batch : List (Tr Obs Act)) (rA2 : R) (perm : List ℕ) (alpha_t : ℚ) : QS × List ℚ :=
  ag.qStep ag.qOpt ag.params (redqLossQ ag batch rA2 perm alpha_t)

/-- Actor loss (lines 290-293): the average (not the minimum) over all `n`
live critics, evaluated at their pre-critic-step parameters, with the policy
sample of the current observations. -/
def redqLossPi {Obs Act R QS PS AS : Type} (ag : RedqAgent Obs Act R QS PS AS)
    (batch : List (Tr Obs Act)) (rA : R) (alpha_t : ℚ) : ℚ :=
  listMean (batch.map fun t =>
    let p := ag.net.actor ag.params rA t.o
    alpha_t * p.2 - listMean ((List.range ag.n).map fun i => ag.net.qs i ag.params t.o p.1))

/-- Actor branch (lines 286-298, 303-304 and 311-312): on policy-update calls
the actor optimizer steps on the actor loss (applied to the post-critic-step
parameters) and the computed loss becomes the new stored actor loss; on other
calls nothing changes and the stored loss carries over.  Returns the new
actor-optimizer state, the final live parameters and the stored loss. -/
def redqPiRes {Obs Act R QS PS AS : Type} (ag : RedqAgent Obs Act R QS PS AS)
    (batch : List (Tr Obs Act)) (rA rA2 : R) (perm : List ℕ) (alpha_t : ℚ) :
    PS × List ℚ × ℚ :=
  if redqUpdatePolicy ag then
    let loss_pi := redqLossPi ag batch rA alpha_t
    let st := ag.piStep ag.piOpt (redqQRes ag batch rA2 perm alpha_t).2 loss_pi
    (st.1, st.2, loss_pi)
  else (ag.piOpt, (redqQRes ag batch rA2 perm alpha_t).2, ag.loss_pi_stored)

/-- Entropy-coefficient optimizer step (lines 261-264), performed only when a
coefficient loss was built. -/
def redqAlphaRes {Obs Act R QS PS AS : Type} (ag : RedqAgent Obs Act R QS PS AS)
    (loss_alpha : Option ℚ) : AS × ℚ :=
  match loss_alpha with
  | some la => ag.alphaStep ag.alphaOpt ag.log_alpha la
  | none => (ag.alphaOpt, ag.log_alpha)

/-- The agent state after one REDQ training step: incremented counter,
updated live parameters, polyak-averaged target parameters computed last from
the final live parameters, carried or refreshed stored actor loss, and the
new optimizer states. -/
def redqAgentAfter {Obs Act R QS PS AS : Type} (ag : RedqAgent Obs Act R QS PS AS)
    (batch : List (Tr Obs Act)) (rA rA2 : R) (perm : List ℕ) (alpha_t : ℚ)
    (loss_alpha : Option ℚ) : RedqAgent Obs Act R QS PS AS :=
  { ag with
    params := (redqPiRes ag batch rA rA2 perm alpha_t).2.1,
    target_params :=
      polyakAvg ag.polyak (redqPiRes ag batch rA rA2 perm alpha_t).2.1 ag.target_params,
    log_alpha := (redqAlphaRes ag loss_alpha).2,
    loss_pi_stored := (redqPiRes ag batch rA rA2 perm alpha_t).2.2,
    i_update := ag.i_update + 1,
    qOpt := (redqQRes ag batch rA2 perm alpha_t).1,
    piOpt := (redqPiRes ag batch rA rA2 perm alpha_t).1,
    alphaOpt := (redqAlphaRes ag loss_alpha).1 }

/-- The body of `REDQSACAgent.train` after the entropy coefficient has been
resolved (lines 261-322): numpy raises ValueError when `m > n`, `torch.stack`
raises RuntimeError on an empty prediction list, and the returned dictionary
of lines 313-320 carries the stored actor loss. -/
def redqCore {Obs Act R QS PS AS : Type} (ag : RedqAgent Obs Act R QS PS AS)
    (batch : List (Tr Obs Act)) (rA rA2 : R) (perm : List ℕ)
    (alpha_t : ℚ) (loss_alpha : Option ℚ) :
    Except String (RedqAgent Obs Act R QS PS AS × RetDict) :=
  if ag.m ≤ ag.n then
    if (redqSampleIdxs ag perm).isEmpty then
      .error "RuntimeError: stack expects a non-empty TensorList"
    else
      let base : RetDict :=
        { loss_actor := (redqPiRes ag batch rA rA2 perm alpha_t).2.2,
          loss_critic := redqLossQ ag batch rA2 perm alpha_t,
          loss_entropy_coef := none, entropy_coef := none }
      let retE : Except String RetDict :=
        if ag.learn_entropy_coef then
          match loss_alpha with
          | some la => .ok { base with loss_entropy_coef := some la, entropy_coef := some alpha_t }
          | none => .error "AttributeError: NoneType object has no attribute detach"
        else .ok base
      match retE with
      | .error e => .error e
      | .ok ret => .ok (redqAgentAfter ag batch rA rA2 perm alpha_t loss_alpha, ret)
  else
    .error "ValueError: cannot take a larger sample than population when replace is False"

/-- Entropy-coefficient loss of REDQ (line 257), identical in form to the SAC
one, built from the policy sample at the current observations. -/
def redqLossAlpha {Obs Act R QS PS AS : Type} (ag : RedqAgent Obs Act R QS PS AS)
    (batch : List (Tr Obs Act)) (rA : R) : ℚ :=
  -(listMean (batch.map fun t =>
    ag.log_alpha * ((ag.net.actor ag.params rA t.o).2 + ag.target_entropy)))

/-- One call of `REDQSACAgent.train` (lines 243-322).  `Exp` models
`torch.exp`; `rA` and `rA2` are the randomness of the two actor sampling
calls, and `perm` is the permutation of the critic indices drawn by
`np.random.choice` of which the first `m` entries form the sampled subset.
When the entropy coefficient is learned and the policy is not updated on this
call, the source falls through to `alpha_t = self.alpha_t` (line 259), an
attribute that `__post_init__` never created, so the call raises
AttributeError. -/
def redqTrain {Obs Act R QS PS AS : Type} (Exp : ℚ → ℚ)
    (ag : RedqAgent Obs Act R QS PS AS) (batch : List (Tr Obs Act)) (rA rA2 : R)
    (perm : List ℕ) :
    Except String (RedqAgent Obs Act R QS PS AS × RetDict) :=
  -- lines 254-259
  if ag.learn_entropy_coef && redqUpdatePolicy ag then
    redqCore ag batch rA rA2 perm (Exp ag.log_alpha) (some (redqLossAlpha ag batch rA))
  else
    match ag.alpha_t_attr with
    | some a => redqCore ag batch rA rA2 perm a none
    | none => .error "AttributeError: REDQSACAgent object has no attribute alpha_t"

/-- Construction of a `REDQSACAgent` (`__post_init__`, lines 215-238): live
and target parameters start as deep copies of the freshly built model, the
stored actor loss starts at zero, the counter at zero, the default target
entropy is the negated action dimensionality, and the entropy-coefficient
state is either the learned `log_alpha` (in which case the attribute
`self.alpha_t` is never created) or the fixed scalar.  `Log` models
`torch.log`.  Note that no validation whatsoever relates `m` to `n` here. -/
def redqInit {Obs Act R QS PS AS : Type} (Log : ℚ → ℚ) (net : RedqNet Obs Act R)
    (params0 : List ℚ) (gamma polyak alpha : ℚ) (learn : Bool) (te : Option ℚ)
    (actionDim : ℕ) (n m k : ℕ) (qOpt0 : QS)
    (qStep0 : QS → List ℚ → ℚ → QS × List ℚ) (piOpt0 : PS)
    (piStep0 : PS → List ℚ → ℚ → PS × List ℚ) (alphaOpt0 : AS)
    (alphaStep0 : AS → ℚ → ℚ → AS × ℚ) : RedqAgent Obs Act R QS PS AS :=
  { gamma := gamma, polyak := polyak, learn_entropy_coef := learn,
    target_entropy := te.getD (-(actionDim : ℚ)),
    n := n, m := m, q_updates_per_policy_update := k,
    net := net, params := params0, target_params := params0,
    log_alpha := Log alpha,
    alpha_t_attr := if learn then none else some alpha,
    loss_pi_stored := 0, i_update := 0,
    qOpt := qOpt0, qStep := qStep0, piOpt := piOpt0, piStep := piStep0,
    alphaOpt := alphaOpt0, alphaStep := alphaStep0 }

/-- A sequence of `train` calls, each with its own batch and randomness,
threading the agent state and collecting the returned dictionaries; the first
failure aborts the run. -/
def redqRun {Obs Act R QS PS AS : Type} (Exp : ℚ → ℚ) :
    RedqAgent Obs Act R QS PS AS → List (List (Tr Obs Act) × R × R × List ℕ) →
    Except String (RedqAgent Obs Act R QS PS AS × List RetDict)
  | ag, [] => .ok (ag, [])
  | ag, c :: rest =>
    match redqTrain Exp ag c.1 c.2.1 c.2.2.1 c.2.2.2 with
    | .error e => .error e
    | .ok (ag1, ret) =>
      match redqRun Exp ag1 rest with
      | .error e => .error e
      | .ok (ag2, rets) => .ok (ag2, ret :: rets)

/-- The entropy-coefficient value a SAC call threads into its backup and
actor loss: `exp` of the pre-step `log_alpha` when learned (line 88),
otherwise the fixed attribute `self.alpha_t` (line 94). -/
def sacAlphaUsed {Obs Act R QS PS AS : Type} (Exp : ℚ → ℚ)
    (ag : SacAgent Obs Act R QS PS AS) : ℚ :=
  if ag.learn_entropy_coef then Exp ag.log_alpha else ag.alpha_t_attr.getD 0

/-! Concrete instantiations used to witness the theorems below: scalar
observations and actions, trivial optimizer states, parameter-preserving
optimizer steps, and small hand-picked networks. -/

def idStep : Unit → List ℚ → ℚ → Unit × List ℚ := fun _ ps _ => ((), ps)

def idStepA : Unit → ℚ → ℚ → Unit × ℚ := fun _ la _ => ((), la)

def wSacNet : SacNet ℚ ℚ Unit :=
  { actor := fun ps _ o => (o + ps.headD 0, o - 1),
    q1 := fun ps o a => ps.headD 0 + o + a,
    q2 := fun ps o a => ps.headD 0 + o - a }

def wSacAg : SacAgent ℚ ℚ Unit Unit Unit Unit :=
  { gamma := 1/2, polyak := 1/2, learn_entropy_coef := false, target_entropy := -1,
    net := wSacNet, params := [1], target_params := [2], log_alpha := 0,
    alpha_t_attr := some 2,
    qOpt := (), qStep := idStep, piOpt := (), piStep := idStep,
    alphaOpt := (), alphaStep := idStepA }

def wSacAgL : SacAgent ℚ ℚ Unit Unit Unit Unit :=
  { wSacAg with
    learn_entropy_coef := true, alpha_t_attr := none }

def wBatchS : List (Tr ℚ ℚ) := [{ o := 1, a := 0, r := 1, o2 := 0, d := 0 }]

def wRedqNet : RedqNet ℚ ℚ Unit :=
  { actor := fun _ _ _ => (0, 0), qs := fun i ps _ _ => ps.headD 0 * i }

def wRedqAg : RedqAgent ℚ ℚ Unit Unit Unit Unit :=
  { gamma := 1, polyak := 0, learn_entropy_coef := false, target_entropy := -1,
    n := 2, m := 1, q_updates_per_policy_update := 1,
    net := wRedqNet, params := [0], target_params := [1],
    log_alpha := 0, alpha_t_attr := some 0, loss_pi_stored := 0, i_update := 0,
    qOpt := (), qStep := idStep, piOpt := (), piStep := idStep,
    alphaOpt := (), alphaStep := idStepA }

def wRedqBatch : List (Tr ℚ ℚ) := [{ o := 0, a := 0, r := 0, o2 := 0, d := 0 }]

/-- A REDQ agent constructed with a learned entropy coefficient and UTD ratio
2: its first `train` call is not a policy-update call. -/
def wRedqAgLearnK2 : RedqAgent ℚ ℚ Unit Unit Unit Unit :=
  redqInit (fun x => x) wRedqNet [0] 1 0 (1/5) true none 1 2 1 2 () idStep () idStep () idStepA

/-- A REDQ agent constructed with a learned entropy coefficient and UTD ratio
3: its first two `train` calls are not policy-update calls. -/
def wRedqAgLearnK3 : RedqAgent ℚ ℚ Unit Unit Unit Unit :=
  redqInit (fun x => x) wRedqNet [0] 1 0 (1/5) true none 1 2 1 3 () idStep () idStep () idStepA

/-- A REDQ agent constructed with subset size larger than the ensemble size
(`m = 5 > n = 3`). -/
def wRedqAgMN : RedqAgent ℚ ℚ Unit Unit Unit Unit :=
  redqInit (fun x => x) wRedqNet [0] 1 0 (1/5) false none 1 3 5 1 () idStep () idStep () idStepA

/-- A REDQ agent constructed with a fixed entropy coefficient and UTD ratio
2. -/
def wRedqAgF2 : RedqAgent ℚ ℚ Unit Unit Unit Unit :=
  redqInit (fun x => x) wRedqNet [0] 1 0 (1/5) false none 1 2 1 2 () idStep () idStep () idStepA

/-! Small arithmetic and list helpers. -/

theorem polyakAvg_one (ps ts : List ℚ) (h : ps.length = ts.length) :
    polyakAvg 1 ps ts = ts := by
  induction ps generalizing ts with
  | nil => cases ts with
    | nil => rfl
    | cons t ts => simp at h
  | cons p ps ih =>
    cases ts with
    | nil => simp at h
    | cons t ts =>
      simp only [List.length_cons, Nat.add_right_cancel_iff] at h
      simp [polyakAvg, List.zipWith] at ih ⊢
      exact ih ts h

theorem polyakAvg_zero (ps ts : List ℚ) (h : ps.length = ts.length) :
    polyakAvg 0 ps ts = ps := by
  induction ps generalizing ts with
  | nil => rfl
  | cons p ps ih =>
    cases ts with
    | nil => simp at h
    | cons t ts =>
      simp only [List.length_cons, Nat.add_right_cancel_iff] at h
      simp [polyakAvg, List.zipWith] at ih ⊢
      exact ih ts h

theorem foldl_min_le (xs : List ℚ) (a : ℚ) :
    (∀ x ∈ xs, xs.foldl min a ≤ x) ∧ xs.foldl min a ≤ a := by
  induction xs generalizing a with
  | nil => exact ⟨fun x hx => absurd hx (List.not_mem_nil x), le_refl a⟩
  | cons y ys ih =>
    have h1 : List.foldl min (min a y) ys ≤ min a y := (ih (min a y)).2
    constructor
    · intro x hx
      rcases List.mem_cons.mp hx with h | h
      · exact h ▸ h1.trans (min_le_right a y)
      · exact (ih (min a y)).1 x h
    · exact h1.trans (min_le_left a y)

theorem existsUnique_mod_window (c k : ℕ) (hk : 0 < k) :
    ∃! j, j ∈ Finset.Icc 1 k ∧ (c + j) % k = 0 := by
  have hr : c % k < k := Nat.mod_lt _ hk
  have hdm : k * (c / k) + c % k = c := Nat.div_add_mod c k
  refine ⟨k - c % k, ⟨?_, ?_⟩, ?_⟩
  · rw [Finset.mem_Icc]
    omega
  · have hc : c + (k - c % k) = k * (c / k + 1) := by
      rw [Nat.mul_add, Nat.mul_one]
      omega
    rw [hc]
    exact Nat.mul_mod_right _ _
  · rintro j ⟨hj, hjm⟩
    rw [Finset.mem_Icc] at hj
    obtain ⟨d, hd⟩ : k ∣ c % k + j := by
      have h1 : k ∣ c + j := Nat.dvd_of_mod_eq_zero hjm
      have h2 : c + j = k * (c / k) + (c % k + j) := by omega
      have h3 : k ∣ k * (c / k) := Dvd.intro _ rfl
      exact (Nat.dvd_add_right h3).mp (h2 ▸ h1)
    match d, hd with
    | 0, hd => omega
    | 1, hd => omega
    | d + 2, hd =>
      have h2k : 2 * k ≤ c % k + j := by
        rw [hd]
        calc 2 * k = k * 2 := by ring
          _ ≤ k * (d + 2) := Nat.mul_le_mul_left k (by omega)
      omega

theorem minList_le (l : List ℚ) (x : ℚ) (hx : x ∈ l) : minList l ≤ x := by
  cases l with
  | nil => cases hx
  | cons y ys =>
    rcases List.mem_cons.mp hx with h | h
    · exact h ▸ (foldl_min_le ys y).2
    · exact (foldl_min_le ys y).1 x h

/-! Evaluation lemmas: one per reachable branch of the two training steps. -/

theorem sacTrain_eq_learn {Obs Act R QS PS AS : Type} (Exp : ℚ → ℚ)
    (ag : SacAgent Obs Act R QS PS AS) (batch : List (Tr Obs Act)) (rA rA2 : R)
    (hl : ag.learn_entropy_coef = true) :
    sacTrain Exp ag batch rA rA2 =
      .ok (sacAgentAfter ag batch rA rA2 (Exp ag.log_alpha) (some (sacLossAlpha ag batch rA)),
           { loss_actor := sacLossPi ag batch rA rA2 (Exp ag.log_alpha),
             loss_critic := sacLossQ ag batch rA2 (Exp ag.log_alpha),
             loss_entropy_coef := some (sacLossAlpha ag batch rA),
             entropy_coef := some (Exp ag.log_alpha) }) := by
  simp [sacTrain, sacCore, hl]

theorem sacTrain_eq_fixed {Obs Act R QS PS AS : Type} (Exp : ℚ → ℚ)
    (ag : SacAgent Obs Act R QS PS AS) (batch : List (Tr Obs Act)) (rA rA2 : R) (a : ℚ)
    (hl : ag.learn_entropy_coef = false) (ha : ag.alpha_t_attr = some a) :
    sacTrain Exp ag batch rA rA2 =
      .ok (sacAgentAfter ag batch rA rA2 a none,
           { loss_actor := sacLossPi ag batch rA rA2 a,
             loss_critic := sacLossQ ag batch rA2 a,
             loss_entropy_coef := none, entropy_coef := none }) := by
  simp [sacTrain, sacCore, hl, ha]

theorem sacTrain_eq_err_attr {Obs Act R QS PS AS : Type} (Exp : ℚ → ℚ)
    (ag : SacAgent Obs Act R QS PS AS) (batch : List (Tr Obs Act)) (rA rA2 : R)
    (hl : ag.learn_entropy_coef = false) (ha : ag.alpha_t_attr = none) :
    sacTrain Exp ag batch rA rA2 =
      .error "AttributeError: SpinupSacAgent object has no attribute alpha_t" := by
  simp [sacTrain, hl, ha]

theorem redqTrain_eq_learn {Obs Act R QS PS AS : Type} (Exp : ℚ → ℚ)
    (ag : RedqAgent Obs Act R QS PS AS) (batch : List (Tr Obs Act)) (rA rA2 : R)
    (perm : List ℕ)
    (hl : ag.learn_entropy_coef = true) (hu : redqUpdatePolicy ag = true)
    (hmn : ag.m ≤ ag.n) (hne : (redqSampleIdxs ag perm).isEmpty = false) :
    redqTrain Exp ag batch rA rA2 perm =
      .ok (redqAgentAfter ag batch rA rA2 perm (Exp ag.log_alpha)
             (some (redqLossAlpha ag batch rA)),
           { loss_actor := (redqPiRes ag batch rA rA2 perm (Exp ag.log_alpha)).2.2,
             loss_critic := redqLossQ ag batch rA2 perm (Exp ag.log_alpha),
             loss_entropy_coef := some (redqLossAlpha ag batch rA),
             entropy_coef := some (Exp ag.log_alpha) }) := by
  simp [redqTrain, redqCore, hl, hu, hmn, hne]

theorem redqTrain_eq_fixed {Obs Act R QS PS AS : Type} (Exp : ℚ → ℚ)
    (ag : RedqAgent Obs Act R QS PS AS) (batch : List (Tr Obs Act)) (rA rA2 : R)
    (perm : List ℕ) (a : ℚ)
    (hl : ag.learn_entropy_coef = false) (ha : ag.alpha_t_attr = some a)
    (hmn : ag.m ≤ ag.n) (hne : (redqSampleIdxs ag perm).isEmpty = false) :
    redqTrain Exp ag batch rA rA2 perm =
      .ok (redqAgentAfter ag batch rA rA2 perm a none,
           { loss_actor := (redqPiRes ag batch rA rA2 perm a).2.2,
             loss_critic := redqLossQ ag batch rA2 perm a,
             loss_entropy_coef := none, entropy_coef := none }) := by
  simp [redqTrain, redqCore, hl, ha, hmn, hne]

theorem redqTrain_eq_err_attr {Obs Act R QS PS AS : Type} (Exp : ℚ → ℚ)
    (ag : RedqAgent Obs Act R QS PS AS) (batch : List (Tr Obs Act)) (rA rA2 : R)
    (perm : List ℕ)
    (hcond : (ag.learn_entropy_coef && redqUpdatePolicy ag) = false)
    (ha : ag.alpha_t_attr = none) :
    redqTrain Exp ag batch rA rA2 perm =
      .error "AttributeError: REDQSACAgent object has no attribute alpha_t" := by
  simp [redqTrain, hcond, ha]

theorem redqTrain_eq_err_mn {Obs Act R QS PS AS : Type} (Exp : ℚ → ℚ)
    (ag : RedqAgent Obs Act R QS PS AS) (batch : List (Tr Obs Act)) (rA rA2 : R)
    (perm : List ℕ) (a : ℚ)
    (hl : ag.learn_entropy_coef = false) (ha : ag.alpha_t_attr = some a)
    (hmn : ag.n < ag.m) :
    redqTrain Exp ag batch rA rA2 perm =
      .error "ValueError: cannot take a larger sample than population when replace is False" := by
  simp [redqTrain, redqCore, hl, ha, Nat.not_le.mpr hmn]

theorem redqTrain_eq_err_detach {Obs Act R QS PS AS : Type} (Exp : ℚ → ℚ)
    (ag : RedqAgent Obs Act R QS PS AS) (batch : List (Tr Obs Act)) (rA rA2 : R)
    (perm : List ℕ) (a : ℚ)
    (hl : ag.learn_entropy_coef = true) (hu : redqUpdatePolicy ag = false)
    (ha : ag.alpha_t_attr = some a)
    (hmn : ag.m ≤ ag.n) (hne : (redqSampleIdxs ag perm).isEmpty = false) :
    redqTrain Exp ag batch rA rA2 perm =
      .error "AttributeError: NoneType object has no attribute detach" := by
  simp [redqTrain, redqCore, hl, hu, ha, hmn, hne]

/-- Inversion: a successful SAC training call is one of the two non-raising
branches, with the agent and the returned dictionary fully determined. -/
theorem sacTrain_ok_inv {Obs Act R QS PS AS : Type} (Exp : ℚ → ℚ)
    (ag ag' : SacAgent Obs Act R QS PS AS) (batch : List (Tr Obs Act)) (rA rA2 : R)
    (ret : RetDict) (h : sacTrain Exp ag batch rA rA2 = .ok (ag', ret)) :
    (ag.learn_entropy_coef = true ∧
      ag' = sacAgentAfter ag batch rA rA2 (Exp ag.log_alpha) (some (sacLossAlpha ag batch rA)) ∧
      ret = { loss_actor := sacLossPi ag batch rA rA2 (Exp ag.log_alpha),
              loss_critic := sacLossQ ag batch rA2 (Exp ag.log_alpha),
              loss_entropy_coef := some (sacLossAlpha ag batch rA),
              entropy_coef := some (Exp ag.log_alpha) }) ∨
    (∃ a, ag.learn_entropy_coef = false ∧ ag.alpha_t_attr = some a ∧
      ag' = sacAgentAfter ag batch rA rA2 a none ∧
      ret = { loss_actor := sacLossPi ag batch rA rA2 a,
              loss_critic := sacLossQ ag batch rA2 a,
              loss_entropy_coef := none, entropy_coef := none }) := by
  cases hl : ag.learn_entropy_coef with
  | true =>
    rw [sacTrain_eq_learn Exp ag batch rA rA2 hl, Except.ok.injEq, Prod.mk.injEq] at h
    exact Or.inl ⟨rfl, h.1.symm, h.2.symm⟩
  | false =>
    cases ha : ag.alpha_t_attr with
    | none => rw [sacTrain_eq_err_attr Exp ag batch rA rA2 hl ha] at h; exact absurd h (by simp)
    | some a =>
      rw [sacTrain_eq_fixed Exp ag batch rA rA2 a hl ha, Except.ok.injEq, Prod.mk.injEq] at h
      exact Or.inr ⟨a, rfl, rfl, h.1.symm, h.2.symm⟩

/-- Inversion: a successful REDQ training call has a valid subset size, a
nonempty sampled subset, and is one of the two non-raising branches, with the
agent and the returned dictionary fully determined. -/
theorem redqTrain_ok_inv {Obs Act R QS PS AS : Type} (Exp : ℚ → ℚ)
    (ag ag' : RedqAgent Obs Act R QS PS AS) (batch : List (Tr Obs Act)) (rA rA2 : R)
    (perm : List ℕ) (ret : RetDict)
    (h : redqTrain Exp ag batch rA rA2 perm = .ok (ag', ret)) :
    ag.m ≤ ag.n ∧ (redqSampleIdxs ag perm).isEmpty = false ∧
    ((ag.learn_entropy_coef = true ∧ redqUpdatePolicy ag = true ∧
      ag' = redqAgentAfter ag batch rA rA2 perm (Exp ag.log_alpha)
              (some (redqLossAlpha ag batch rA)) ∧
      ret = { loss_actor := (redqPiRes ag batch rA rA2 perm (Exp ag.log_alpha)).2.2,
              loss_critic := redqLossQ ag batch rA2 perm (Exp ag.log_alpha),
              loss_entropy_coef := some (redqLossAlpha ag batch rA),
              entropy_coef := some (Exp ag.log_alpha) }) ∨
     (∃ a, ag.learn_entropy_coef = false ∧ ag.alpha_t_attr = some a ∧
      ag' = redqAgentAfter ag batch rA rA2 perm a none ∧
      ret = { loss_actor := (redqPiRes ag batch rA rA2 perm a).2.2,
              loss_critic := redqLossQ ag batch rA2 perm a,
              loss_entropy_coef := none, entropy_coef := none })) := by
  by_cases hmn : ag.m ≤ ag.n
  · cases hne : (redqSampleIdxs ag perm).isEmpty with
    | true =>
      exfalso
      cases hlu : (ag.learn_entropy_coef && redqUpdatePolicy ag) with
      | true => simp [redqTrain, hlu, redqCore, hmn, hne] at h
      | false =>
        cases ha : ag.alpha_t_attr with
        | none => simp [redqTrain, hlu, ha] at h
        | some a => simp [redqTrain, hlu, ha, redqCore, hmn, hne] at h
    | false =>
      refine ⟨hmn, rfl, ?_⟩
      cases hl : ag.learn_entropy_coef with
      | true =>
        cases hu : redqUpdatePolicy ag with
        | true =>
          rw [redqTrain_eq_learn Exp ag batch rA rA2 perm hl hu hmn hne,
            Except.ok.injEq, Prod.mk.injEq] at h
          exact Or.inl ⟨rfl, rfl, h.1.symm, h.2.symm⟩
        | false =>
          exfalso
          cases ha : ag.alpha_t_attr with
          | none => simp [redqTrain, hl, hu, ha] at h
          | some a =>
            rw [redqTrain_eq_err_detach Exp ag batch rA rA2 perm a hl hu ha hmn hne] at h
            exact absurd h (by simp)
      | false =>
        cases ha : ag.alpha_t_attr with
        | none => simp [redqTrain, hl, ha] at h
        | some a =>
          rw [redqTrain_eq_fixed Exp ag batch rA rA2 perm a hl ha hmn hne,
            Except.ok.injEq, Prod.mk.injEq] at h
          exact Or.inr ⟨a, rfl, rfl, h.1.symm, h.2.symm⟩
  · exfalso
    cases hlu : (ag.learn_entropy_coef && redqUpdatePolicy ag) with
    | true => simp [redqTrain, hlu, redqCore, hmn] at h
    | false =>
      cases ha : ag.alpha_t_attr with
      | none => simp [redqTrain, hlu, ha] at h
      | some a => simp [redqTrain, hlu, ha, redqCore, hmn] at h

/-! The claims. -/

/-- C1: in the SAC training step, the Bellman backup is
`r + gamma * (1-done) * (min(target_q1(o2,a2), target_q2(o2,a2)) - alpha_t * logp_a2)`
with `(a2, logp_a2)` sampled from the current live actor at the next
observations, and the critic loss applied by the critic optimizer is the mean
of the two live critics' mean-squared errors against this backup,
`(loss_q1 + loss_q2) / 2`. -/
theorem sac_critic_loss_formula (Obs Act R QS PS AS : Type) (Exp : ℚ → ℚ)
    (ag ag' : SacAgent Obs Act R QS PS AS) (batch : List (Tr Obs Act)) (rA rA2 : R)
    (ret : RetDict) (h : sacTrain Exp ag batch rA rA2 = .ok (ag', ret)) :
    ret.loss_critic =
      (listMean (batch.map fun t =>
        (ag.net.q1 ag.params t.o t.a -
          (t.r + ag.gamma * (1 - t.d) *
            (min (ag.net.q1 ag.target_params t.o2 (ag.net.actor ag.params rA2 t.o2).1)
                 (ag.net.q2 ag.target_params t.o2 (ag.net.actor ag.params rA2 t.o2).1) -
             sacAlphaUsed Exp ag * (ag.net.actor ag.params rA2 t.o2).2))) ^ 2) +
       listMean (batch.map fun t =>
        (ag.net.q2 ag.params t.o t.a -
          (t.r + ag.gamma * (1 - t.d) *
            (min (ag.net.q1 ag.target_params t.o2 (ag.net.actor ag.params rA2 t.o2).1)
                 (ag.net.q2 ag.target_params t.o2 (ag.net.actor ag.params rA2 t.o2).1) -
             sacAlphaUsed Exp ag * (ag.net.actor ag.params rA2 t.o2).2))) ^ 2)) / 2 ∧
    ag'.qOpt = (ag.qStep ag.qOpt ag.params ret.loss_critic).1 := by
  rcases sacTrain_ok_inv Exp ag ag' batch rA rA2 ret h with
    ⟨hl, hag, hret⟩ | ⟨a, hl, ha, hag, hret⟩
  · have hα : sacAlphaUsed Exp ag = Exp ag.log_alpha := by simp [sacAlphaUsed, hl]
    subst hag; subst hret
    rw [hα]
    exact ⟨rfl, rfl⟩
  · have hα : sacAlphaUsed Exp ag = a := by simp [sacAlphaUsed, hl, ha]
    subst hag; subst hret
    rw [hα]
    exact ⟨rfl, rfl⟩

theorem sac_critic_loss_formula_witness :
    sacTrain (fun x => x) wSacAg wBatchS () () =
      .ok (sacAgentAfter wSacAg wBatchS () () 2 none,
           { loss_actor := sacLossPi wSacAg wBatchS () () 2,
             loss_critic := sacLossQ wSacAg wBatchS () 2,
             loss_entropy_coef := none, entropy_coef := none }) ∧
    sacLossQ wSacAg wBatchS () 2 =
      (listMean (wBatchS.map fun t =>
        (wSacAg.net.q1 wSacAg.params t.o t.a -
          (t.r + wSacAg.gamma * (1 - t.d) *
            (min (wSacAg.net.q1 wSacAg.target_params t.o2 (wSacAg.net.actor wSacAg.params () t.o2).1)
                 (wSacAg.net.q2 wSacAg.target_params t.o2 (wSacAg.net.actor wSacAg.params () t.o2).1) -
             sacAlphaUsed (fun x => x) wSacAg * (wSacAg.net.actor wSacAg.params () t.o2).2))) ^ 2) +
       listMean (wBatchS.map fun t =>
        (wSacAg.net.q2 wSacAg.params t.o t.a -
          (t.r + wSacAg.gamma * (1 - t.d) *
            (min (wSacAg.net.q1 wSacAg.target_params t.o2 (wSacAg.net.actor wSacAg.params () t.o2).1)
                 (wSacAg.net.q2 wSacAg.target_params t.o2 (wSacAg.net.actor wSacAg.params () t.o2).1) -
             sacAlphaUsed (fun x => x) wSacAg * (wSacAg.net.actor wSacAg.params () t.o2).2))) ^ 2)) / 2 := by
  have h : sacTrain (fun x => x) wSacAg wBatchS () () =
      .ok (sacAgentAfter wSacAg wBatchS () () 2 none,
           { loss_actor := sacLossPi wSacAg wBatchS () () 2,
             loss_critic := sacLossQ wSacAg wBatchS () 2,
             loss_entropy_coef := none, entropy_coef := none }) :=
    sacTrain_eq_fixed (fun x => x) wSacAg wBatchS () () 2 rfl rfl
  exact ⟨h, (sac_critic_loss_formula ℚ ℚ Unit Unit Unit Unit (fun x => x)
    wSacAg _ wBatchS () () _ h).1⟩

/-- C4: in the SAC training step, the actor loss applied by the actor
optimizer is `mean(alpha_t * logp_pi - min(q1(o, pi), q2(o, pi)))`, where
`(pi, logp_pi)` is the sample drawn from the actor at the start of the call
(randomness `rA`, not the `rA2` of the backup's sample) and is not resampled,
and the live critics are evaluated at their current (post-critic-step)
parameters. -/
theorem sac_actor_loss_formula (Obs Act R QS PS AS : Type) (Exp : ℚ → ℚ)
    (ag ag' : SacAgent Obs Act R QS PS AS) (batch : List (Tr Obs Act)) (rA rA2 : R)
    (ret : RetDict) (h : sacTrain Exp ag batch rA rA2 = .ok (ag', ret)) :
    ret.loss_actor =
      listMean (batch.map fun t =>
        sacAlphaUsed Exp ag * (ag.net.actor ag.params rA t.o).2 -
          min (ag.net.q1 (sacQRes ag batch rA2 (sacAlphaUsed Exp ag)).2 t.o
                 (ag.net.actor ag.params rA t.o).1)
              (ag.net.q2 (sacQRes ag batch rA2 (sacAlphaUsed Exp ag)).2 t.o
                 (ag.net.actor ag.params rA t.o).1)) ∧
    ag'.piOpt =
      (ag.piStep ag.piOpt (sacQRes ag batch rA2 (sacAlphaUsed Exp ag)).2 ret.loss_actor).1 := by
  rcases sacTrain_ok_inv Exp ag ag' batch rA rA2 ret h with
    ⟨hl, hag, hret⟩ | ⟨a, hl, ha, hag, hret⟩
  · have hα : sacAlphaUsed Exp ag = Exp ag.log_alpha := by simp [sacAlphaUsed, hl]
    subst hag; subst hret
    rw [hα]
    exact ⟨rfl, rfl⟩
  · have hα : sacAlphaUsed Exp ag = a := by simp [sacAlphaUsed, hl, ha]
    subst hag; subst hret
    rw [hα]
    exact ⟨rfl, rfl⟩

theorem sac_actor_loss_formula_witness :
    sacTrain (fun x => x) wSacAg wBatchS () () =
      .ok (sacAgentAfter wSacAg wBatchS () () 2 none,
           { loss_actor := sacLossPi wSacAg wBatchS () () 2,
             loss_critic := sacLossQ wSacAg wBatchS () 2,
             loss_entropy_coef := none, entropy_coef := none }) ∧
    sacLossPi wSacAg wBatchS () () 2 =
      listMean (wBatchS.map fun t =>
        sacAlphaUsed (fun x => x) wSacAg * (wSacAg.net.actor wSacAg.params () t.o).2 -
          min (wSacAg.net.q1 (sacQRes wSacAg wBatchS () (sacAlphaUsed (fun x => x) wSacAg)).2 t.o
                 (wSacAg.net.actor wSacAg.params () t.o).1)
              (wSacAg.net.q2 (sacQRes wSacAg wBatchS () (sacAlphaUsed (fun x => x) wSacAg)).2 t.o
                 (wSacAg.net.actor wSacAg.params () t.o).1)) := by
  have h : sacTrain (fun x => x) wSacAg wBatchS () () =
      .ok (sacAgentAfter wSacAg wBatchS () () 2 none,
           { loss_actor := sacLossPi wSacAg wBatchS () () 2,
             loss_critic := sacLossQ wSacAg wBatchS () 2,
             loss_entropy_coef := none, entropy_coef := none }) :=
    sacTrain_eq_fixed (fun x => x) wSacAg wBatchS () () 2 rfl rfl
  exact ⟨h, (sac_actor_loss_formula ℚ ℚ Unit Unit Unit Unit (fun x => x)
    wSacAg _ wBatchS () () _ h).1⟩

/-- C2: in every successful `train()` call of both agents, the polyak update
runs last and on every call, setting every target parameter to
`polyak * target + (1 - polyak) * live` elementwise against the post-update
live parameters; `polyak = 1` leaves the targets unchanged, `polyak = 0`
copies the post-update live parameters, and the functional characterization
shows the targets change in no other way during the call. -/
theorem polyak_target_update (Obs Act R QS PS AS : Type) (Exp : ℚ → ℚ)
    (agS agS' : SacAgent Obs Act R QS PS AS) (batchS : List (Tr Obs Act)) (rA rA2 : R)
    (retS : RetDict)
    (agR agR' : RedqAgent Obs Act R QS PS AS) (batchR : List (Tr Obs Act)) (rB rB2 : R)
    (perm : List ℕ) (retR : RetDict)
    (hS : sacTrain Exp agS batchS rA rA2 = .ok (agS', retS))
    (hR : redqTrain Exp agR batchR rB rB2 perm = .ok (agR', retR)) :
    (agS'.target_params =
        List.zipWith (fun p pt => agS.polyak * pt + (1 - agS.polyak) * p)
          agS'.params agS.target_params ∧
      (agS.polyak = 1 → agS'.params.length = agS.target_params.length →
        agS'.target_params = agS.target_params) ∧
      (agS.polyak = 0 → agS'.params.length = agS.target_params.length →
        agS'.target_params = agS'.params)) ∧
    (agR'.target_params =
        List.zipWith (fun p pt => agR.polyak * pt + (1 - agR.polyak) * p)
          agR'.params agR.target_params ∧
      (agR.polyak = 1 → agR'.params.length = agR.target_params.length →
        agR'.target_params = agR.target_params) ∧
      (agR.polyak = 0 → agR'.params.length = agR.target_params.length →
        agR'.target_params = agR'.params)) := by
  constructor
  · have hmain : agS'.target_params = polyakAvg agS.polyak agS'.params agS.target_params ∧
        agS'.params = agS'.params := by
      rcases sacTrain_ok_inv Exp agS agS' batchS rA rA2 retS hS with
        ⟨hl, hag, hret⟩ | ⟨a, hl, ha, hag, hret⟩ <;> subst hag <;> exact ⟨rfl, rfl⟩
    refine ⟨hmain.1, ?_, ?_⟩
    · intro h1 hlen
      rw [hmain.1, h1]
      exact polyakAvg_one _ _ hlen
    · intro h0 hlen
      rw [hmain.1, h0]
      exact polyakAvg_zero _ _ hlen
  · have hmain : agR'.target_params = polyakAvg agR.polyak agR'.params agR.target_params := by
      rcases redqTrain_ok_inv Exp agR agR' batchR rB rB2 perm retR hR with
        ⟨hmn, hne, ⟨hl, hu, hag, hret⟩ | ⟨a, hl, ha, hag, hret⟩⟩ <;> subst hag <;> rfl
    refine ⟨hmain, ?_, ?_⟩
    · intro h1 hlen
      rw [hmain, h1]
      exact polyakAvg_one _ _ hlen
    · intro h0 hlen
      rw [hmain, h0]
      exact polyakAvg_zero _ _ hlen

theorem polyak_target_update_witness :
    sacTrain (fun x => x) wSacAg wBatchS () () =
      .ok (sacAgentAfter wSacAg wBatchS () () 2 none,
           { loss_actor := sacLossPi wSacAg wBatchS () () 2,
             loss_critic := sacLossQ wSacAg wBatchS () 2,
             loss_entropy_coef := none, entropy_coef := none }) ∧
    redqTrain (fun x => x) wRedqAg wRedqBatch () () [0, 1] =
      .ok (redqAgentAfter wRedqAg wRedqBatch () () [0, 1] 0 none,
           { loss_actor := (redqPiRes wRedqAg wRedqBatch () () [0, 1] 0).2.2,
             loss_critic := redqLossQ wRedqAg wRedqBatch () [0, 1] 0,
             loss_entropy_coef := none, entropy_coef := none }) ∧
    (sacAgentAfter wSacAg wBatchS () () 2 none).target_params =
      List.zipWith (fun p pt => wSacAg.polyak * pt + (1 - wSacAg.polyak) * p)
        (sacAgentAfter wSacAg wBatchS () () 2 none).params wSacAg.target_params ∧
    (redqAgentAfter wRedqAg wRedqBatch () () [0, 1] 0 none).target_params =
      List.zipWith (fun p pt => wRedqAg.polyak * pt + (1 - wRedqAg.polyak) * p)
        (redqAgentAfter wRedqAg wRedqBatch () () [0, 1] 0 none).params
        wRedqAg.target_params := by
  have hS : sacTrain (fun x => x) wSacAg wBatchS () () =
      .ok (sacAgentAfter wSacAg wBatchS () () 2 none,
           { loss_actor := sacLossPi wSacAg wBatchS () () 2,
             loss_critic := sacLossQ wSacAg wBatchS () 2,
             loss_entropy_coef := none, entropy_coef := none }) :=
    sacTrain_eq_fixed (fun x => x) wSacAg wBatchS () () 2 rfl rfl
  have hR : redqTrain (fun x => x) wRedqAg wRedqBatch () () [0, 1] =
      .ok (redqAgentAfter wRedqAg wRedqBatch () () [0, 1] 0 none,
           { loss_actor := (redqPiRes wRedqAg wRedqBatch () () [0, 1] 0).2.2,
             loss_critic := redqLossQ wRedqAg wRedqBatch () [0, 1] 0,
             loss_entropy_coef := none, entropy_coef := none }) :=
    redqTrain_eq_fixed (fun x => x) wRedqAg wRedqBatch () () [0, 1] 0 rfl rfl
      (by decide) (by decide)
  have hmain := polyak_target_update ℚ ℚ Unit Unit Unit Unit (fun x => x)
    wSacAg _ wBatchS () () _ wRedqAg _ wRedqBatch () () [0, 1] _ hS hR
  exact ⟨hS, hR, hmain.1.1, hmain.2.1⟩

/-- C3: in every successful REDQ `train()` call, the counter increments, the
critic optimizer steps (on the critic loss the call reports), the policy is
updated exactly when the 1-based call index is a multiple of
`q_updates_per_policy_update` (equivalently, when the incremented counter
reduces to zero modulo it); on update calls the actor optimizer (and, when
learned, the entropy-coefficient optimizer) steps and the computed actor loss
is returned and stored, on other calls the actor and entropy state are
untouched and the stored actor loss from the most recent update call is
returned unchanged; and for positive `k` exactly one of any `k` consecutive
call indices triggers a policy update. -/
theorem redq_utd_gating (Obs Act R QS PS AS : Type) (Exp : ℚ → ℚ)
    (ag ag' : RedqAgent Obs Act R QS PS AS) (batch : List (Tr Obs Act)) (rA rA2 : R)
    (perm : List ℕ) (ret : RetDict)
    (h : redqTrain Exp ag batch rA rA2 perm = .ok (ag', ret)) :
    ag'.i_update = ag.i_update + 1 ∧
    (∃ lq, ag'.qOpt = (ag.qStep ag.qOpt ag.params lq).1 ∧ ret.loss_critic = lq) ∧
    (redqUpdatePolicy ag = true ↔
      ag.q_updates_per_policy_update ∣ (ag.i_update + 1)) ∧
    (redqUpdatePolicy ag = true →
      (∃ lp ps, ag'.piOpt = (ag.piStep ag.piOpt ps lp).1 ∧ ret.loss_actor = lp ∧
        ag'.loss_pi_stored = lp) ∧
      (ag.learn_entropy_coef = true →
        ∃ la, ag'.alphaOpt = (ag.alphaStep ag.alphaOpt ag.log_alpha la).1)) ∧
    (redqUpdatePolicy ag = false →
      ag'.piOpt = ag.piOpt ∧ ag'.log_alpha = ag.log_alpha ∧ ag'.alphaOpt = ag.alphaOpt ∧
      ret.loss_actor = ag.loss_pi_stored ∧ ag'.loss_pi_stored = ag.loss_pi_stored) ∧
    (0 < ag.q_updates_per_policy_update →
      ∃! j, j ∈ Finset.Icc 1 ag.q_updates_per_policy_update ∧
        (ag.i_update + j) % ag.q_updates_per_policy_update = 0) := by
  have hiff : redqUpdatePolicy ag = true ↔
      ag.q_updates_per_policy_update ∣ (ag.i_update + 1) := by
    rw [redqUpdatePolicy, beq_iff_eq]
    exact Nat.dvd_iff_mod_eq_zero.symm
  rcases redqTrain_ok_inv Exp ag ag' batch rA rA2 perm ret h with
    ⟨hmn, hne, ⟨hl, hu, hag, hret⟩ | ⟨a, hl, ha, hag, hret⟩⟩
  · subst hag; subst hret
    refine ⟨rfl, ⟨_, rfl, rfl⟩, hiff, ?_, ?_, ?_⟩
    · intro _
      constructor
      · exact ⟨redqLossPi ag batch rA (Exp ag.log_alpha),
          (redqQRes ag batch rA2 perm (Exp ag.log_alpha)).2,
          by simp [redqAgentAfter, redqPiRes, hu], by simp [redqPiRes, hu], by simp [redqAgentAfter, redqPiRes, hu]⟩
      · intro _
        exact ⟨redqLossAlpha ag batch rA, by simp [redqAgentAfter, redqAlphaRes]⟩
    · intro h'
      rw [hu] at h'
      exact Bool.noConfusion h'
    · intro hk
      exact existsUnique_mod_window ag.i_update ag.q_updates_per_policy_update hk
  · subst hag; subst hret
    refine ⟨rfl, ⟨_, rfl, rfl⟩, hiff, ?_, ?_, ?_⟩
    · intro hu
      constructor
      · exact ⟨redqLossPi ag batch rA a, (redqQRes ag batch rA2 perm a).2,
          by simp [redqAgentAfter, redqPiRes, hu], by simp [redqPiRes, hu], by simp [redqAgentAfter, redqPiRes, hu]⟩
      · intro hlg
        rw [hl] at hlg
        exact Bool.noConfusion hlg
    · intro hu
      exact ⟨by simp [redqAgentAfter, redqPiRes, hu], by simp [redqAgentAfter, redqAlphaRes],
        by simp [redqAgentAfter, redqAlphaRes], by simp [redqPiRes, hu], by simp [redqAgentAfter, redqPiRes, hu]⟩
    · intro hk
      exact existsUnique_mod_window ag.i_update ag.q_updates_per_policy_update hk

theorem redq_utd_gating_witness :
    redqTrain (fun x => x) wRedqAg wRedqBatch () () [0, 1] =
      .ok (redqAgentAfter wRedqAg wRedqBatch () () [0, 1] 0 none,
           { loss_actor := (redqPiRes wRedqAg wRedqBatch () () [0, 1] 0).2.2,
             loss_critic := redqLossQ wRedqAg wRedqBatch () [0, 1] 0,
             loss_entropy_coef := none, entropy_coef := none }) ∧
    (redqAgentAfter wRedqAg wRedqBatch () () [0, 1] 0 none).i_update =
      wRedqAg.i_update + 1 ∧
    (redqUpdatePolicy wRedqAg = true ↔
      wRedqAg.q_updates_per_policy_update ∣ (wRedqAg.i_update + 1)) := by
  have h : redqTrain (fun x => x) wRedqAg wRedqBatch () () [0, 1] =
      .ok (redqAgentAfter wRedqAg wRedqBatch () () [0, 1] 0 none,
           { loss_actor := (redqPiRes wRedqAg wRedqBatch () () [0, 1] 0).2.2,
             loss_critic := redqLossQ wRedqAg wRedqBatch () [0, 1] 0,
             loss_entropy_coef := none, entropy_coef := none }) :=
    redqTrain_eq_fixed (fun x => x) wRedqAg wRedqBatch () () [0, 1] 0 rfl rfl
      (by decide) (by decide)
  have hmain := redq_utd_gating ℚ ℚ Unit Unit Unit Unit (fun x => x)
    wRedqAg _ wRedqBatch () () [0, 1] _ h
  exact ⟨h, hmain.1, hmain.2.2.1⟩

/-- C5: when the entropy coefficient is learned, a successful training step
of either agent uses `alpha_t = exp(log_alpha)` at the pre-step value of
`log_alpha` in its backup and actor loss and as the reported coefficient,
builds `coefficient_loss = -mean(log_alpha * (log_prob_pi + target_entropy))`
and hands exactly that loss to the coefficient's own optimizer (whose step is
the only way `log_alpha` changes); when not learned, the fixed scalar
attribute is used and no coefficient loss is produced. -/
theorem entropy_coef_update (Obs Act R QS PS AS : Type) (Exp : ℚ → ℚ)
    (agS agS' : SacAgent Obs Act R QS PS AS) (batchS : List (Tr Obs Act)) (rA rA2 : R)
    (retS : RetDict)
    (agR agR' : RedqAgent Obs Act R QS PS AS) (batchR : List (Tr Obs Act)) (rB rB2 : R)
    (perm : List ℕ) (retR : RetDict)
    (hS : sacTrain Exp agS batchS rA rA2 = .ok (agS', retS))
    (hR : redqTrain Exp agR batchR rB rB2 perm = .ok (agR', retR)) :
    ((agS.learn_entropy_coef = true →
      retS.entropy_coef = some (Exp agS.log_alpha) ∧
      retS.loss_entropy_coef = some (-(listMean (batchS.map fun t =>
        agS.log_alpha * ((agS.net.actor agS.params rA t.o).2 + agS.target_entropy)))) ∧
      agS'.log_alpha = (agS.alphaStep agS.alphaOpt agS.log_alpha
        (-(listMean (batchS.map fun t =>
          agS.log_alpha * ((agS.net.actor agS.params rA t.o).2 + agS.target_entropy))))).2 ∧
      agS'.alphaOpt = (agS.alphaStep agS.alphaOpt agS.log_alpha
        (-(listMean (batchS.map fun t =>
          agS.log_alpha * ((agS.net.actor agS.params rA t.o).2 + agS.target_entropy))))).1 ∧
      retS.loss_critic = sacLossQ agS batchS rA2 (Exp agS.log_alpha) ∧
      retS.loss_actor = sacLossPi agS batchS rA rA2 (Exp agS.log_alpha)) ∧
     (agS.learn_entropy_coef = false →
      retS.loss_entropy_coef = none ∧ retS.entropy_coef = none ∧
      agS'.log_alpha = agS.log_alpha ∧
      ∃ a, agS.alpha_t_attr = some a ∧
        retS.loss_critic = sacLossQ agS batchS rA2 a ∧
        retS.loss_actor = sacLossPi agS batchS rA rA2 a)) ∧
    ((agR.learn_entropy_coef = true →
      redqUpdatePolicy agR = true ∧
      retR.entropy_coef = some (Exp agR.log_alpha) ∧
      retR.loss_entropy_coef = some (-(listMean (batchR.map fun t =>
        agR.log_alpha * ((agR.net.actor agR.params rB t.o).2 + agR.target_entropy)))) ∧
      agR'.log_alpha = (agR.alphaStep agR.alphaOpt agR.log_alpha
        (-(listMean (batchR.map fun t =>
          agR.log_alpha * ((agR.net.actor agR.params rB t.o).2 + agR.target_entropy))))).2 ∧
      retR.loss_critic = redqLossQ agR batchR rB2 perm (Exp agR.log_alpha) ∧
      retR.loss_actor = redqLossPi agR batchR rB (Exp agR.log_alpha)) ∧
     (agR.learn_entropy_coef = false →
      retR.loss_entropy_coef = none ∧ retR.entropy_coef = none ∧
      agR'.log_alpha = agR.log_alpha)) := by
  constructor
  · rcases sacTrain_ok_inv Exp agS agS' batchS rA rA2 retS hS with
      ⟨hl, hag, hret⟩ | ⟨a, hl, ha, hag, hret⟩
    · subst hag; subst hret
      constructor
      · intro _
        exact ⟨rfl, rfl, rfl, rfl, rfl, rfl⟩
      · intro h'
        rw [hl] at h'
        exact Bool.noConfusion h'
    · subst hag; subst hret
      constructor
      · intro h'
        rw [hl] at h'
        exact Bool.noConfusion h'
      · intro _
        exact ⟨rfl, rfl, rfl, a, ha, rfl, rfl⟩
  · rcases redqTrain_ok_inv Exp agR agR' batchR rB rB2 perm retR hR with
      ⟨hmn, hne, ⟨hl, hu, hag, hret⟩ | ⟨a, hl, ha, hag, hret⟩⟩
    · subst hag; subst hret
      constructor
      · intro _
        exact ⟨hu, rfl, rfl, rfl, rfl, by simp [redqPiRes, hu]⟩
      · intro h'
        rw [hl] at h'
        exact Bool.noConfusion h'
    · subst hag; subst hret
      constructor
      · intro h'
        rw [hl] at h'
        exact Bool.noConfusion h'
      · intro _
        exact ⟨rfl, rfl, rfl⟩

theorem entropy_coef_update_witness :
    sacTrain (fun x => x) wSacAgL wBatchS () () =
      .ok (sacAgentAfter wSacAgL wBatchS () () ((fun x => x) wSacAgL.log_alpha)
             (some (sacLossAlpha wSacAgL wBatchS ())),
           { loss_actor := sacLossPi wSacAgL wBatchS () () ((fun x => x) wSacAgL.log_alpha),
             loss_critic := sacLossQ wSacAgL wBatchS () ((fun x => x) wSacAgL.log_alpha),
             loss_entropy_coef := some (sacLossAlpha wSacAgL wBatchS ()),
             entropy_coef := some ((fun x => x) wSacAgL.log_alpha) }) ∧
    redqTrain (fun x => x) wRedqAg wRedqBatch () () [0, 1] =
      .ok (redqAgentAfter wRedqAg wRedqBatch () () [0, 1] 0 none,
           { loss_actor := (redqPiRes wRedqAg wRedqBatch () () [0, 1] 0).2.2,
             loss_critic := redqLossQ wRedqAg wRedqBatch () [0, 1] 0,
             loss_entropy_coef := none, entropy_coef := none }) ∧
    (sacAgentAfter wSacAgL wBatchS () () ((fun x => x) wSacAgL.log_alpha)
      (some (sacLossAlpha wSacAgL wBatchS ()))).log_alpha =
      (wSacAgL.alphaStep wSacAgL.alphaOpt wSacAgL.log_alpha
        (-(listMean (wBatchS.map fun t =>
          wSacAgL.log_alpha * ((wSacAgL.net.actor wSacAgL.params () t.o).2 +
            wSacAgL.target_entropy))))).2 := by
  have hS : sacTrain (fun x => x) wSacAgL wBatchS () () =
      .ok (sacAgentAfter wSacAgL wBatchS () () ((fun x => x) wSacAgL.log_alpha)
             (some (sacLossAlpha wSacAgL wBatchS ())),
           { loss_actor := sacLossPi wSacAgL wBatchS () () ((fun x => x) wSacAgL.log_alpha),
             loss_critic := sacLossQ wSacAgL wBatchS () ((fun x => x) wSacAgL.log_alpha),
             loss_entropy_coef := some (sacLossAlpha wSacAgL wBatchS ()),
             entropy_coef := some ((fun x => x) wSacAgL.log_alpha) }) :=
    sacTrain_eq_learn (fun x => x) wSacAgL wBatchS () () rfl
  have hR : redqTrain (fun x => x) wRedqAg wRedqBatch () () [0, 1] =
      .ok (redqAgentAfter wRedqAg wRedqBatch () () [0, 1] 0 none,
           { loss_actor := (redqPiRes wRedqAg wRedqBatch () () [0, 1] 0).2.2,
             loss_critic := redqLossQ wRedqAg wRedqBatch () [0, 1] 0,
             loss_entropy_coef := none, entropy_coef := none }) :=
    redqTrain_eq_fixed (fun x => x) wRedqAg wRedqBatch () () [0, 1] 0 rfl rfl
      (by decide) (by decide)
  have hmain := entropy_coef_update ℚ ℚ Unit Unit Unit Unit (fun x => x)
    wSacAgL _ wBatchS () () _ wRedqAg _ wRedqBatch () () [0, 1] _ hS hR
  exact ⟨hS, hR, ((hmain.1.1 rfl).2.2).1⟩

/-- C2 counterexample: a REDQ call with a learned entropy coefficient on a
non-policy-update call aborts with AttributeError before reaching the polyak
block, so no target update of any kind is performed on that call — refuting
"performed on every call" in the unrestricted sense (the targets are simply
left untouched by the aborted call). -/
theorem redq_crashed_call_performs_no_polyak :
    redqUpdatePolicy wRedqAgLearnK2 = false ∧
    redqTrain (fun x => x) wRedqAgLearnK2 wRedqBatch () () [0] =
      .error "AttributeError: REDQSACAgent object has no attribute alpha_t" :=
  ⟨rfl, rfl⟩

/-- C3 counterexample: with a learned entropy coefficient and UTD ratio 2,
the first `train()` call — a non-policy-update call — raises AttributeError
before the critic section, so no critic update occurs on that call, refuting
"critic updates occur on every train() call" in the unrestricted sense. -/
theorem redq_nonupdate_learned_call_fails :
    redqUpdatePolicy wRedqAgLearnK2 = false ∧
    redqTrain (fun x => x) wRedqAgLearnK2 wRedqBatch () () [1, 0] =
      .error "AttributeError: REDQSACAgent object has no attribute alpha_t" :=
  ⟨rfl, rfl⟩

/-- C5 counterexample: with a learned entropy coefficient, a REDQ training
step on which the policy is not updated does not compute
`alpha_t = exp(log_alpha)` and applies no coefficient optimizer step — it
raises AttributeError instead, refuting "each training step computes ..." in
the unrestricted sense. -/
theorem redq_learned_nonupdate_skips_entropy_update :
    wRedqAgLearnK3.learn_entropy_coef = true ∧
    redqUpdatePolicy wRedqAgLearnK3 = false ∧
    redqTrain (fun x => x) wRedqAgLearnK3 wRedqBatch () () [1, 0] =
      .error "AttributeError: REDQSACAgent object has no attribute alpha_t" :=
  ⟨rfl, rfl, rfl⟩

/-- C6: a concrete REDQ call with a learned entropy coefficient on a
non-policy-update call (UTD ratio 2, first call after construction) raises
AttributeError instead of completing and returning the four diagnostics: the
fall-through branch reads `self.alpha_t`, which `__post_init__` never creates
when the coefficient is learned. -/
theorem redq_learned_entropy_nonupdate_raises :
    wRedqAgLearnK2.learn_entropy_coef = true ∧
    redqUpdatePolicy wRedqAgLearnK2 = false ∧
    redqTrain (fun x => x) wRedqAgLearnK2 wRedqBatch () () [0, 1] =
      .error "AttributeError: REDQSACAgent object has no attribute alpha_t" :=
  ⟨rfl, rfl, rfl⟩

/-- C7 counterexample: constructing a REDQ agent with `m = 5 > n = 3`
succeeds (the constructed agent is fully initialized, no validation runs),
and the failure only surfaces during the first `train()` call, as a numpy
ValueError from the subset sampling — refuting fail-fast-at-construction. -/
theorem redq_mn_not_checked_at_construction :
    wRedqAgMN.n = 3 ∧ wRedqAgMN.m = 5 ∧ wRedqAgMN.i_update = 0 ∧
    wRedqAgMN.loss_pi_stored = 0 ∧ wRedqAgMN.params = [0] ∧
    redqTrain (fun x => x) wRedqAgMN wRedqBatch () () [0, 1, 2] =
      .error "ValueError: cannot take a larger sample than population when replace is False" :=
  ⟨rfl, rfl, rfl, rfl, rfl, rfl⟩

/-- C7 (amended): construction does not validate the ensemble parameters;
with `m > n` every `train()` call that reaches the subset sampling (here: a
fixed entropy coefficient, so no earlier attribute error) raises ValueError
at train time. -/
theorem redq_mn_fails_at_first_train (Obs Act R QS PS AS : Type) (Exp : ℚ → ℚ)
    (ag : RedqAgent Obs Act R QS PS AS) (batch : List (Tr Obs Act)) (rA rA2 : R)
    (perm : List ℕ) (a : ℚ)
    (hl : ag.learn_entropy_coef = false) (ha : ag.alpha_t_attr = some a)
    (hmn : ag.n < ag.m) :
    redqTrain Exp ag batch rA rA2 perm =
      .error "ValueError: cannot take a larger sample than population when replace is False" :=
  redqTrain_eq_err_mn Exp ag batch rA rA2 perm a hl ha hmn

theorem redq_mn_fails_at_first_train_witness :
    wRedqAgMN.learn_entropy_coef = false ∧ wRedqAgMN.n < wRedqAgMN.m ∧
    redqTrain (fun x => x) wRedqAgMN wRedqBatch () () [2, 1, 0] =
      .error "ValueError: cannot take a larger sample than population when replace is False" :=
  ⟨rfl, by decide,
    redq_mn_fails_at_first_train ℚ ℚ Unit Unit Unit Unit (fun x => x)
      wRedqAgMN wRedqBatch () () [2, 1, 0] (1/5) rfl rfl (by decide)⟩

/-- C8: the value term of the Bellman backup never exceeds any of the target
critic predictions it was minimized over: for SAC the pairwise minimum is
below both target critics, and for REDQ the subset minimum is below each of
the `m` sampled target critics, where the sampled index list (the first `m`
entries of the drawn permutation of `0..n-1`) has no duplicate index, has
length `m`, and only contains indices below `n`. -/
theorem backup_value_term_le (Obs Act R QS PS AS : Type)
    (agS : SacAgent Obs Act R QS PS AS) (agR : RedqAgent Obs Act R QS PS AS)
    (rA2 : R) (perm : List ℕ) (t : Tr Obs Act)
    (hperm : perm.Perm (List.range agR.n)) (hmn : agR.m ≤ agR.n) :
    (sacValueTerm agS.net agS.target_params t.o2 (agS.net.actor agS.params rA2 t.o2).1 ≤
       agS.net.q1 agS.target_params t.o2 (agS.net.actor agS.params rA2 t.o2).1 ∧
     sacValueTerm agS.net agS.target_params t.o2 (agS.net.actor agS.params rA2 t.o2).1 ≤
       agS.net.q2 agS.target_params t.o2 (agS.net.actor agS.params rA2 t.o2).1) ∧
    ((redqSampleIdxs agR perm).Nodup ∧
     (redqSampleIdxs agR perm).length = agR.m ∧
     (∀ i ∈ redqSampleIdxs agR perm, i < agR.n) ∧
     (∀ i ∈ redqSampleIdxs agR perm,
        redqValueTerm agR.net agR.target_params (redqSampleIdxs agR perm) t.o2
            (agR.net.actor agR.params rA2 t.o2).1 ≤
          agR.net.qs i agR.target_params t.o2 (agR.net.actor agR.params rA2 t.o2).1)) := by
  have hnd : perm.Nodup := (hperm.nodup_iff).mpr (List.nodup_range _)
  refine ⟨⟨min_le_left _ _, min_le_right _ _⟩, ?_, ?_, ?_, ?_⟩
  · exact List.Nodup.sublist (List.take_sublist _ _) hnd
  · rw [redqSampleIdxs, List.length_take, hperm.length_eq, List.length_range]
    exact Nat.min_eq_left hmn
  · intro i hi
    exact List.mem_range.mp (hperm.subset (List.take_subset _ _ hi))
  · intro i hi
    exact minList_le _ _ (List.mem_map_of_mem _ hi)

theorem backup_value_term_le_witness :
    ([0, 1] : List ℕ).Perm (List.range wRedqAg.n) ∧ wRedqAg.m ≤ wRedqAg.n ∧
    (redqSampleIdxs wRedqAg [0, 1]).Nodup ∧
    (∀ i ∈ redqSampleIdxs wRedqAg [0, 1],
      redqValueTerm wRedqAg.net wRedqAg.target_params (redqSampleIdxs wRedqAg [0, 1]) (0 : ℚ)
          (wRedqAg.net.actor wRedqAg.params () (0 : ℚ)).1 ≤
        wRedqAg.net.qs i wRedqAg.target_params (0 : ℚ)
          (wRedqAg.net.actor wRedqAg.params () (0 : ℚ)).1) := by
  have hperm : ([0, 1] : List ℕ).Perm (List.range wRedqAg.n) := by
    rw [show List.range wRedqAg.n = [0, 1] from rfl]
  have hmn : wRedqAg.m ≤ wRedqAg.n := by decide
  have hmain := backup_value_term_le ℚ ℚ Unit Unit Unit Unit wSacAg wRedqAg ()
    [0, 1] { o := 0, a := 0, r := 0, o2 := 0, d := 0 } hperm hmn
  exact ⟨hperm, hmn, hmain.2.1, hmain.2.2.2.2⟩

/-- C9 counterexample: two REDQ `train` calls from the same agent state with
the same batch, differing only in the pseudo-random draw of the target-critic
subset, report different critic losses — so a call is not determined by the
approximator, target and optimizer state and the batch alone. -/
theorem train_rng_sensitivity :
    (redqTrain (fun x => x) wRedqAg wRedqBatch () () [0, 1]).map
        (fun x => x.2.loss_critic) = .ok 0 ∧
    (redqTrain (fun x => x) wRedqAg wRedqBatch () () [1, 0]).map
        (fun x => x.2.loss_critic) = .ok 1 ∧
    (redqTrain (fun x => x) wRedqAg wRedqBatch () () [0, 1]).map
        (fun x => x.2.loss_critic) ≠
      (redqTrain (fun x => x) wRedqAg wRedqBatch () () [1, 0]).map
        (fun x => x.2.loss_critic) := by
  have h0 : (redqTrain (fun x => x) wRedqAg wRedqBatch () () [0, 1]).map
      (fun x => x.2.loss_critic) = .ok 0 := by
    norm_num [redqTrain, redqCore, redqUpdatePolicy, redqSampleIdxs, redqBackup,
      redqLossQ, redqQRes, redqLossPi, redqPiRes, redqAlphaRes, redqAgentAfter,
      redqValueTerm, minList, listMean, polyakAvg, wRedqAg, wRedqNet, wRedqBatch,
      idStep, idStepA, Except.map]
  have h1 : (redqTrain (fun x => x) wRedqAg wRedqBatch () () [1, 0]).map
      (fun x => x.2.loss_critic) = .ok 1 := by
    norm_num [redqTrain, redqCore, redqUpdatePolicy, redqSampleIdxs, redqBackup,
      redqLossQ, redqQRes, redqLossPi, redqPiRes, redqAlphaRes, redqAgentAfter,
      redqValueTerm, minList, listMean, polyakAvg, wRedqAg, wRedqNet, wRedqBatch,
      idStep, idStepA, Except.map]
  refine ⟨h0, h1, ?_⟩
  rw [h0, h1]
  intro hc
  cases hc

/-- C9 (amended): a training call of either agent is a pure function of the
agent state (approximators, targets, optimizer states, counters), the batch
and the pseudo-random draws it consumes (the actor samples and, for REDQ,
the permutation behind the subset draw); fixing all of these fixes the
parameter updates and the returned diagnostics. -/
theorem train_deterministic_given_rng (Obs Act R QS PS AS : Type) (Exp : ℚ → ℚ)
    (agS1 agS2 : SacAgent Obs Act R QS PS AS) (b1 b2 : List (Tr Obs Act))
    (rA1 rA2 rB1 rB2 : R)
    (agR1 agR2 : RedqAgent Obs Act R QS PS AS) (c1 c2 : List (Tr Obs Act))
    (rC1 rC2 rD1 rD2 : R) (p1 p2 : List ℕ)
    (hagS : agS1 = agS2) (hb : b1 = b2) (h1 : rA1 = rB1) (h2 : rA2 = rB2)
    (hagR : agR1 = agR2) (hc : c1 = c2) (h3 : rC1 = rD1) (h4 : rC2 = rD2)
    (hp : p1 = p2) :
    sacTrain Exp agS1 b1 rA1 rA2 = sacTrain Exp agS2 b2 rB1 rB2 ∧
    redqTrain Exp agR1 c1 rC1 rC2 p1 = redqTrain Exp agR2 c2 rD1 rD2 p2 := by
  subst hagS; subst hb; subst h1; subst h2
  subst hagR; subst hc; subst h3; subst h4; subst hp
  exact ⟨rfl, rfl⟩

theorem train_deterministic_given_rng_witness :
    sacTrain (fun x => x) wSacAg wBatchS () () = sacTrain (fun x => x) wSacAg wBatchS () () ∧
    redqTrain (fun x => x) wRedqAg wRedqBatch () () [0, 1] =
      redqTrain (fun x => x) wRedqAg wRedqBatch () () [0, 1] :=
  train_deterministic_given_rng ℚ ℚ Unit Unit Unit Unit (fun x => x)
    wSacAg wSacAg wBatchS wBatchS () () () ()
    wRedqAg wRedqAg wRedqBatch wRedqBatch () () () () [0, 1] [0, 1]
    rfl rfl rfl rfl rfl rfl rfl rfl rfl

/-- On a run of successful REDQ calls that all lie strictly before the next
policy-update index, every returned `loss_actor` is the stored actor loss the
run started with, and the stored loss is unchanged at the end. -/
theorem redqRun_carry (Obs Act R QS PS AS : Type) (Exp : ℚ → ℚ) :
    ∀ (inputs : List (List (Tr Obs Act) × R × R × List ℕ))
      (ag ag' : RedqAgent Obs Act R QS PS AS) (rets : List RetDict),
      redqRun Exp ag inputs = .ok (ag', rets) →
      ag.i_update + inputs.length < ag.q_updates_per_policy_update →
      (∀ x ∈ rets, x.loss_actor = ag.loss_pi_stored) ∧
        ag'.loss_pi_stored = ag.loss_pi_stored := by
  intro inputs
  induction inputs with
  | nil =>
    intro ag ag' rets h hlen
    rw [redqRun] at h
    rw [Except.ok.injEq, Prod.mk.injEq] at h
    obtain ⟨rfl, rfl⟩ := h
    exact ⟨fun x hx => absurd hx (List.not_mem_nil x), rfl⟩
  | cons c rest ih =>
    intro ag ag' rets h hlen
    rw [redqRun] at h
    cases ht : redqTrain Exp ag c.1 c.2.1 c.2.2.1 c.2.2.2 with
    | error e => rw [ht] at h; cases h
    | ok pr =>
      obtain ⟨ag1, ret⟩ := pr
      rw [ht] at h
      dsimp only at h
      cases hr : redqRun Exp ag1 rest with
      | error e => rw [hr] at h; cases h
      | ok pr2 =>
        obtain ⟨ag2, rets'⟩ := pr2
        rw [hr] at h
        dsimp only at h
        rw [Except.ok.injEq, Prod.mk.injEq] at h
        rw [← h.1, ← h.2]
        have hu : redqUpdatePolicy ag = false := by
          have hmod : (ag.i_update + 1) % ag.q_updates_per_policy_update =
              ag.i_update + 1 := by
            apply Nat.mod_eq_of_lt
            simp only [List.length_cons] at hlen
            omega
          simp [redqUpdatePolicy, hmod]
        rcases redqTrain_ok_inv Exp ag ag1 c.1 c.2.1 c.2.2.1 c.2.2.2 ret ht with
          ⟨hmn, hne, ⟨hl, hu', hag1, hret⟩ | ⟨a, hl, ha, hag1, hret⟩⟩
        · rw [hu] at hu'
          exact Bool.noConfusion hu'
        · subst hag1; subst hret
          have hstored : (redqPiRes ag c.1 c.2.1 c.2.2.1 c.2.2.2 a).2.2 =
              ag.loss_pi_stored := by
            simp [redqPiRes, hu]
          have hrest := ih (redqAgentAfter ag c.1 c.2.1 c.2.2.1 c.2.2.2 a none) ag2 rets' hr
            (by
              simp only [redqAgentAfter, List.length_cons] at hlen ⊢
              omega)
          constructor
          · intro x hx
            rcases List.mem_cons.mp hx with hx | hx
            · rw [hx]
              exact hstored
            · rw [hrest.1 x hx]
              simp [redqAgentAfter, hstored]
          · rw [hrest.2]
            simp [redqAgentAfter, hstored]

/-- C10 (amended): for a REDQ agent constructed with a fixed entropy
coefficient (`learn_entropy_coef = False`), every successful `train()` call
made before the first policy update (any run of fewer than
`q_updates_per_policy_update` calls from construction) returns `loss_actor`
equal to the zero scalar initialized at construction; with a learned
coefficient such calls instead raise AttributeError and return nothing. -/
theorem redq_loss_actor_zero_before_first_update (Obs Act R QS PS AS : Type)
    (Exp Log : ℚ → ℚ) (net : RedqNet Obs Act R) (params0 : List ℚ)
    (gamma polyak alpha : ℚ) (te : Option ℚ) (actionDim : ℕ) (n m k : ℕ)
    (qOpt0 : QS) (qStep0 : QS → List ℚ → ℚ → QS × List ℚ) (piOpt0 : PS)
    (piStep0 : PS → List ℚ → ℚ → PS × List ℚ) (alphaOpt0 : AS)
    (alphaStep0 : AS → ℚ → ℚ → AS × ℚ)
    (inputs : List (List (Tr Obs Act) × R × R × List ℕ))
    (ag' : RedqAgent Obs Act R QS PS AS) (rets : List RetDict)
    (h : redqRun Exp (redqInit Log net params0 gamma polyak alpha false te actionDim
      n m k qOpt0 qStep0 piOpt0 piStep0 alphaOpt0 alphaStep0) inputs = .ok (ag', rets))
    (hlen : inputs.length < k) :
    ∀ x ∈ rets, x.loss_actor = 0 := by
  have hcarry := redqRun_carry Obs Act R QS PS AS Exp inputs
    (redqInit Log net params0 gamma polyak alpha false te actionDim
      n m k qOpt0 qStep0 piOpt0 piStep0 alphaOpt0 alphaStep0) ag' rets h
    (by simpa [redqInit] using hlen)
  intro x hx
  rw [hcarry.1 x hx]
  rfl

theorem redq_loss_actor_zero_before_first_update_witness :
    redqRun (fun x => x)
        (redqInit (fun x => x) wRedqNet [0] 1 0 (1/5) false none 1 2 1 2
          () idStep () idStep () idStepA) [(wRedqBatch, (), (), [0, 1])] =
      .ok (redqAgentAfter wRedqAgF2 wRedqBatch () () [0, 1] (1/5) none,
           [{ loss_actor := (redqPiRes wRedqAgF2 wRedqBatch () () [0, 1] (1/5)).2.2,
              loss_critic := redqLossQ wRedqAgF2 wRedqBatch () [0, 1] (1/5),
              loss_entropy_coef := none, entropy_coef := none }]) ∧
    (1 < 2) ∧
    ∀ x ∈ [({ loss_actor := (redqPiRes wRedqAgF2 wRedqBatch () () [0, 1] (1/5)).2.2,
              loss_critic := redqLossQ wRedqAgF2 wRedqBatch () [0, 1] (1/5),
              loss_entropy_coef := none, entropy_coef := none } : RetDict)],
      x.loss_actor = 0 := by
  have ht : redqTrain (fun x => x) wRedqAgF2 wRedqBatch () () [0, 1] =
      .ok (redqAgentAfter wRedqAgF2 wRedqBatch () () [0, 1] (1/5) none,
           { loss_actor := (redqPiRes wRedqAgF2 wRedqBatch () () [0, 1] (1/5)).2.2,
             loss_critic := redqLossQ wRedqAgF2 wRedqBatch () [0, 1] (1/5),
             loss_entropy_coef := none, entropy_coef := none }) :=
    redqTrain_eq_fixed (fun x => x) wRedqAgF2 wRedqBatch () () [0, 1] (1/5) rfl rfl
      (by decide) (by decide)
  have h : redqRun (fun x => x)
      (redqInit (fun x => x) wRedqNet [0] 1 0 (1/5) false none 1 2 1 2
        () idStep () idStep () idStepA) [(wRedqBatch, (), (), [0, 1])] =
      .ok (redqAgentAfter wRedqAgF2 wRedqBatch () () [0, 1] (1/5) none,
           [{ loss_actor := (redqPiRes wRedqAgF2 wRedqBatch () () [0, 1] (1/5)).2.2,
              loss_critic := redqLossQ wRedqAgF2 wRedqBatch () [0, 1] (1/5),
              loss_entropy_coef := none, entropy_coef := none }]) := by
    show redqRun (fun x => x) wRedqAgF2 [(wRedqBatch, (), (), [0, 1])] = _
    rw [redqRun, ht]
    rfl
  exact ⟨h, by decide,
    redq_loss_actor_zero_before_first_update ℚ ℚ Unit Unit Unit Unit (fun x => x)
      (fun x => x) wRedqNet [0] 1 0 (1/5) none 1 2 1 2 () idStep () idStep () idStepA
      [(wRedqBatch, (), (), [0, 1])] _ _ h (by decide)⟩

/-- C10 counterexample: with a learned entropy coefficient and UTD ratio 3,
the very first `train()` call — a call made before any policy update — raises
AttributeError instead of returning the zero stored actor loss. -/
theorem redq_pre_update_call_raises_when_learned :
    wRedqAgLearnK3.loss_pi_stored = 0 ∧ wRedqAgLearnK3.i_update = 0 ∧
    redqTrain (fun x => x) wRedqAgLearnK3 wRedqBatch () () [0, 1] =
      .error "AttributeError: REDQSACAgent object has no attribute alpha_t" :=
  ⟨rfl, rfl, rfl⟩

end Tmrl
